import Mathlib

/-!
A shallow embedding of the validation engine in `src/validator.py`
(class `DataValidator` together with the Pydantic row models), and proofs
about the properties stated in the specification.

Conventions of the embedding:
* pandas DataFrames become `Table` (ordered column names plus ordered rows,
  each row an association list from column name to raw `Cell` value);
  a missing/empty CSV cell is the distinguished `Cell.na` (pandas NaN);
* Python code that can raise is embedded in `Except String`, the error
  string naming the Python exception (KeyError, TypeError, ...);
* the wall clock used for report file names is passed in as an explicit
  `String` timestamp parameter;
* the side effects that the checks perform besides mutating
  `self.error_details` and writing report files (print, logging) are not
  observable by any caller and are dropped.
-/

deriving instance DecidableEq for Except

namespace DataValidation

/-- A raw cell value as produced by the pandas CSV loader: a missing cell is
`na` (NaN); otherwise the loader yields an int, a string, or a float. -/
inductive Cell where
  | na : Cell
  | int : Int → Cell
  | str : String → Cell
  | float : Rat → Cell
deriving DecidableEq

/-- Python `str()` of a cell value, as interpolated into finding messages
(`f"... value = {val}"`). NaN prints as `nan`; floats are modelled by `Rat`
and printed with its `toString`, which agrees with Python on the integral
and simple decimal values used in this development. -/
def pyStr : Cell → String
  | Cell.na => "nan"
  | Cell.int n => toString n
  | Cell.str s => s
  | Cell.float q => toString q

/-- One DataFrame row: an association list from column name to cell value.
pandas rows carry exactly the table's columns. -/
abbrev Row := List (String × Cell)

/-- Cell of a row at a column (`row[col]` / `df.at[idx, col]`); rows produced
by the loader always carry every table column. -/
def getCell (r : Row) (c : String) : Cell := (r.lookup c).getD Cell.na

/-- A loaded DataFrame: ordered column names and ordered rows, row order
being source order (index label `i` = position `i`). -/
structure Table where
  cols : List String
  rows : List Row
deriving DecidableEq

/-- Column access `df[c]` as the ordered list of that column's cells;
raises `KeyError` when the column is absent, as pandas does. -/
def Table.getCol (t : Table) (c : String) : Except String (List Cell) :=
  if t.cols.contains c then Except.ok (t.rows.map (fun r => getCell r c))
  else Except.error ("KeyError: " ++ c)

/-- Total number of NaN cells of a table: `df.isnull().sum().sum()`. -/
def nullCount (t : Table) : Nat :=
  (t.rows.map (fun r => (t.cols.filter (fun c => getCell r c == Cell.na)).length)).sum

/-- The loaded schema YAML: a nested string-keyed dictionary,
`schema[table]["foreign_keys"][localColumn] = "targetTable.targetColumn"`.
A schema whose load failed is the empty dictionary `[]`. -/
abbrev Schema := List (String × List (String × List (String × String)))

/-- Python `dict[k]`: `KeyError` when the key is absent. -/
def dictGet {α : Type} (m : List (String × α)) (k : String) : Except String α :=
  match m.lookup k with
  | some v => Except.ok v
  | none => Except.error ("KeyError: " ++ k)

/-- Split a list of characters at every occurrence of `sep`
(Python `str.split(sep)` for a one-character separator). -/
def splitOnChar (sep : Char) : List Char → List (List Char)
  | [] => [[]]
  | c :: rest =>
    if c == sep then [] :: splitOnChar sep rest
    else
      match splitOnChar sep rest with
      | [] => [[c]]
      | h :: t => (c :: h) :: t

/-- Python `fk.split(".")` on a foreign-key target string. -/
def fkParts (s : String) : List String :=
  (splitOnChar '.' s.data).map (fun l => String.mk l)

/-- Python tuple unpacking `a, b = fk.split(".")`: `ValueError` unless the
split has exactly two parts. -/
def splitFK (s : String) : Except String (String × String) :=
  match fkParts s with
  | [a, b] => Except.ok (a, b)
  | _ => Except.error ("ValueError: cannot unpack " ++ s)

/-- Python `lst[1]`: `IndexError` when there is no second element. -/
def pyIndex1 (l : List String) : Except String String :=
  match l with
  | _ :: b :: _ => Except.ok b
  | _ => Except.error "IndexError: list index out of range"

/-- Run-relevant totals of one exported validation report: the seven metrics
written under `summary` in the JSON report and as labelled rows in the CSV
report, in the engine's fixed order. -/
structure Counts where
  nulls_attorneys : Nat
  nulls_cases : Nat
  nulls_time_entries : Nat
  duplicate_attorney_ids : Nat
  invalid_attorney_refs_cases : Nat
  invalid_case_refs_time_entries : Nat
  invalid_attorney_refs_time_entries : Nat
deriving DecidableEq

/-- One written report file: its (timestamped) file name, its counts, and the
finding list written into it (`details` in the JSON report, the trailing
`Detailed Errors` rows in the CSV report). -/
structure Report where
  filename : String
  counts : Counts
  details : List String
deriving DecidableEq

/-- The mutable state of one `DataValidator` instance: the three optional
DataFrames, the loaded schema, the append-only finding accumulator
`error_details`, and the reports written so far. -/
structure EngineState where
  attorneys_df : Option Table
  cases_df : Option Table
  time_entries_df : Option Table
  schema : Schema
  error_details : List String
  reports : List Report
deriving DecidableEq

/-- A fresh engine state with no tables, no findings and no reports. -/
def emptyState : EngineState :=
  { attorneys_df := none, cases_df := none, time_entries_df := none,
    schema := [], error_details := [], reports := [] }

/-- `DataValidator.__init__`: the constructor stores no tables yet and loads
the schema YAML inside `try/except`; on failure it records a finding
(`f"Failed to load schema file {schema_file}: {e}"`, here the whole
file-and-exception text is the error payload) and proceeds with the empty
schema `{}`. -/
def mkDataValidator (schemaLoad : Except String Schema) : EngineState :=
  match schemaLoad with
  | Except.ok sch => { emptyState with schema := sch }
  | Except.error e =>
      { emptyState with schema := [],
                        error_details := ["Failed to load schema file " ++ e] }

/-- Appending findings to the accumulator (`self.error_details.append`). -/
def withFindings (s : EngineState) (fs : List String) : EngineState :=
  { s with error_details := s.error_details ++ fs }

/-- Subscripting / attribute access on a DataFrame slot that may still be
`None` (Python raises `TypeError` / `AttributeError` on `None`). -/
def reqDf : Option Table → Except String Table
  | some t => Except.ok t
  | none => Except.error "TypeError: NoneType is not a DataFrame"

/-- `DataValidator.load_data`: the three `pd.read_csv` calls run inside a
single `try` block, in order attorneys, cases, time_entries; a DataFrame
slot is assigned as soon as its own read succeeds, and the first failing
read aborts the block and records one `Failed to load files` finding. The
`la`, `lc`, `lt` arguments are the outside-world results of the three
reads. -/
def load_data (la lc lt : Except String Table) (s : EngineState) : EngineState :=
  match la with
  | Except.error e => withFindings s ["Failed to load files: " ++ e]
  | Except.ok a =>
    match lc with
    | Except.error e =>
        withFindings { s with attorneys_df := some a } ["Failed to load files: " ++ e]
    | Except.ok c =>
      match lt with
      | Except.error e =>
          withFindings { s with attorneys_df := some a, cases_df := some c }
            ["Failed to load files: " ++ e]
      | Except.ok t =>
          { s with attorneys_df := some a, cases_df := some c, time_entries_df := some t }

/-- The hard-coded expected column set of the attorneys table. -/
def expected_attorneys : List String :=
  ["attorney_id", "first_name", "last_name", "email", "department", "bar_admission_date"]

/-- The hard-coded expected column set of the cases table. -/
def expected_cases : List String :=
  ["case_id", "attorney_id", "title", "status", "start_date", "closed_date"]

/-- The hard-coded expected column set of the time-entries table. -/
def expected_time_entries : List String :=
  ["entry_id", "case_id", "attorney_id", "hours", "date"]

/-- Set difference `expected - set(df.columns)`, kept in the declaration
order of `expected` (Python iterates a set whose repr order is
unspecified; this embedding fixes the declaration order). -/
def missingCols (expected : List String) (t : Table) : List String :=
  expected.filter (fun c => !(t.cols.contains c))

/-- Python set repr of a list of strings, in the list's order. -/
def pySetRepr (l : List String) : String :=
  "\x7b" ++ String.intercalate ", " (l.map (fun s => "\x27" ++ s ++ "\x27")) ++ "\x7d"

/-- The findings appended by `check_required_columns`: one `Missing columns`
finding per table whose expected-minus-actual difference is non-empty,
and a single `All expected columns are present.` finding when all three
differences are empty. -/
def checkRequiredFindings (a c t : Table) : List String :=
  let ma := missingCols expected_attorneys a
  let mc := missingCols expected_cases c
  let mt := missingCols expected_time_entries t
  (if ma.isEmpty then [] else ["Missing columns in attorneys file: " ++ pySetRepr ma]) ++
  (if mc.isEmpty then [] else ["Missing columns in cases file: " ++ pySetRepr mc]) ++
  (if mt.isEmpty then [] else ["Missing columns in time_entries file: " ++ pySetRepr mt]) ++
  (if ma.isEmpty && mc.isEmpty && mt.isEmpty then ["All expected columns are present."] else [])

/-- `DataValidator.check_required_columns` as a state step: it dereferences
the three DataFrames (raising on `None`) and appends its findings. -/
def check_required_columns (s : EngineState) : Except String EngineState := do
  let a ← reqDf s.attorneys_df
  let c ← reqDf s.cases_df
  let t ← reqDf s.time_entries_df
  pure (withFindings s (checkRequiredFindings a c t))

/-- `series.duplicated().any()`: some value occurs more than once. -/
def hasDup (vals : List Cell) : Bool := vals.dedup.length != vals.length

/-- `series.duplicated().sum()`: the number of entries equal to some earlier
entry, i.e. total length minus number of distinct values. -/
def dupCount (vals : List Cell) : Nat := vals.length - vals.dedup.length

/-- The duplicate-attorney_id findings of `validate_data_integrity`: one
fixed-text finding in either case. -/
def dupFindings (vals : List Cell) : List String :=
  if hasDup vals then ["Duplicate attorney_id values found in attorneys file"]
  else ["No duplicate attorney_id values."]

/-- `set(src) - set(tgt)`: the distinct values of the referencing column that
are absent from the target column, in first-occurrence order. -/
def setDiff (src tgt : List Cell) : List Cell :=
  src.dedup.filter (fun v => !(tgt.contains v))

/-- The per-row detail findings of one foreign-key relation: one finding per
source row whose value is violating, in source row order, at the 1-based
header-adjusted row identifier `idx + 2`. -/
def fkDetailFindings (srcVals viol : List Cell) (colName fileName : String) : List String :=
  (srcVals.enum.filter (fun p => viol.contains p.2)).map
    (fun p => "❌ Unknown " ++ colName ++ " in " ++ fileName ++ " file at row "
      ++ toString (p.1 + 2) ++ ": value = " ++ pyStr p.2)

/-- `getattr(self, self.df_name_map[name])` followed by subscripting: the
name must be one of the three known table names (else `KeyError` from
`df_name_map`), and the slot must be loaded (else a `None` error). -/
def resolveDf (s : EngineState) (name : String) : Except String Table :=
  if name == "attorneys" then reqDf s.attorneys_df
  else if name == "pro_bono_cases" then reqDf s.cases_df
  else if name == "time_entries" then reqDf s.time_entries_df
  else Except.error ("KeyError: " ++ name)

/-- The cases-file foreign-key block of `validate_data_integrity`: resolve
`schema["pro_bono_cases"]["foreign_keys"]["attorney_id"]`, split it,
resolve the target table, compute the violating set, and produce either
the single success finding or the summary finding (whose count is the
number of distinct violating values) followed by the per-row details. -/
def casesFKFindings (s : EngineState) : Except String (List String) := do
  let tmap ← dictGet s.schema "pro_bono_cases"
  let fkmap ← dictGet tmap "foreign_keys"
  let case_fk ← dictGet fkmap "attorney_id"
  let pq ← splitFK case_fk
  let ref_df ← resolveDf s pq.1
  let cases_df ← reqDf s.cases_df
  let srcVals ← cases_df.getCol "attorney_id"
  let tgtVals ← ref_df.getCol pq.2
  let viol := setDiff srcVals tgtVals
  if viol.isEmpty then
    pure ["All attorney_id values in cases file match attorneys file."]
  else
    pure (("Foreign key mismatch: " ++ toString viol.length
        ++ " unknown attorney_id(s) found in cases file.")
      :: fkDetailFindings srcVals viol "attorney_id" "cases")

/-- The time-entries foreign-key block of `validate_data_integrity`: the two
declared relations (`case_id`, `attorney_id`) are resolved from
`schema["time_entries"]["foreign_keys"]`, each produces a summary plus
details when violated, and a single combined success finding is appended
only when both relations are clean. -/
def timeEntriesFKFindings (s : EngineState) : Except String (List String) := do
  let tmap ← dictGet s.schema "time_entries"
  let fkmap ← dictGet tmap "foreign_keys"
  let te_case_fk ← dictGet fkmap "case_id"
  let te_att_fk ← dictGet fkmap "attorney_id"
  let te_case_df ← resolveDf s ((fkParts te_case_fk).headD "")
  let te_att_df ← resolveDf s ((fkParts te_att_fk).headD "")
  let te_df ← reqDf s.time_entries_df
  let caseVals ← te_df.getCol "case_id"
  let caseCol ← pyIndex1 (fkParts te_case_fk)
  let tgtCase ← te_case_df.getCol caseCol
  let attVals ← te_df.getCol "attorney_id"
  let attCol ← pyIndex1 (fkParts te_att_fk)
  let tgtAtt ← te_att_df.getCol attCol
  let invCase := setDiff caseVals tgtCase
  let invAtt := setDiff attVals tgtAtt
  let fCase :=
    if invCase.isEmpty then []
    else ("Foreign key mismatch: " ++ toString invCase.length
        ++ " unknown case_id(s) found in time_entries file.")
      :: fkDetailFindings caseVals invCase "case_id" "time_entries"
  let fAtt :=
    if invAtt.isEmpty then []
    else ("Foreign key mismatch: " ++ toString invAtt.length
        ++ " unknown attorney_id(s) found in time_entries file.")
      :: fkDetailFindings attVals invAtt "attorney_id" "time_entries"
  let fOk :=
    if invCase.isEmpty && invAtt.isEmpty then
      ["All case_id and attorney_id values in time_entries file match cases and attorneys files."]
    else []
  pure (fCase ++ fAtt ++ fOk)

/-- All findings appended by `validate_data_integrity` before it exports the
report: the null-count step only prints (dereferencing the three frames),
then the duplicate check on `attorneys_df["attorney_id"]`, then the
cases-file FK block, then the time-entries FK block. -/
def integrityFindings (s : EngineState) : Except String (List String) := do
  let attorneys_df ← reqDf s.attorneys_df
  let _ ← reqDf s.cases_df
  let _ ← reqDf s.time_entries_df
  let attVals ← attorneys_df.getCol "attorney_id"
  let f2 ← casesFKFindings s
  let f3 ← timeEntriesFKFindings s
  pure (dupFindings attVals ++ f2 ++ f3)

/-- The seven metrics `export_validation_report` recomputes (with hard-coded
columns, independent of the schema): null totals, the duplicated count of
`attorneys.attorney_id`, and the three set-difference cardinalities. -/
def reportCounts (s : EngineState) : Except String Counts := do
  let a ← reqDf s.attorneys_df
  let c ← reqDf s.cases_df
  let te ← reqDf s.time_entries_df
  let attId ← a.getCol "attorney_id"
  let cAtt ← c.getCol "attorney_id"
  let teCase ← te.getCol "case_id"
  let cCase ← c.getCol "case_id"
  let teAtt ← te.getCol "attorney_id"
  pure { nulls_attorneys := nullCount a, nulls_cases := nullCount c,
         nulls_time_entries := nullCount te,
         duplicate_attorney_ids := dupCount attId,
         invalid_attorney_refs_cases := (setDiff cAtt attId).length,
         invalid_case_refs_time_entries := (setDiff teCase cCase).length,
         invalid_attorney_refs_time_entries := (setDiff teAtt attId).length }

/-- `DataValidator.export_validation_report` at wall-clock timestamp `t`: it
computes the counts and writes two brand-new files, the CSV report and
the JSON report, both holding the same counts and the finding list as it
stands at export time. (The code calls `datetime.now()` once per file;
the two calls are modelled by the single timestamp `t`.) -/
def export_validation_report (t : String) (s : EngineState) : Except String EngineState :=
  (reportCounts s).map (fun cts =>
    { s with reports := s.reports ++
        [{ filename := "validation_report_" ++ t ++ ".csv", counts := cts,
           details := s.error_details },
         { filename := "validation_report_" ++ t ++ ".json", counts := cts,
           details := s.error_details }] })

/-- `DataValidator.validate_data_integrity`: append the integrity findings,
then (still inside this method) export the validation report. -/
def validate_data_integrity (t : String) (s : EngineState) : Except String EngineState :=
  (integrityFindings s).bind (fun fs => export_validation_report t (withFindings s fs))

/-- ASCII model of the regex class `\w` (`[A-Za-z0-9_]`). -/
def isWordChar (c : Char) : Bool := c.isAlphanum || c == '_'

/-- The regex class `[\w.-]` of the email pattern. -/
def isLocalChar (c : Char) : Bool := isWordChar c || c == '.' || c == '-'

/-- Whole-string match of the email regex `^[\w\.-]+@[\w\.-]+\.\w+$` from
`validate_formats_and_values`: a non-empty `[\w.-]+` local part, the `@`,
then a domain that, read from the right, is a non-empty `\w+` label
preceded by a literal dot preceded by a non-empty `[\w.-]+` rest. -/
def matchEmailChars (cs : List Char) : Bool :=
  match cs.dropWhile isLocalChar with
  | [] => false
  | c :: r2 =>
    c == '@' && !(cs.takeWhile isLocalChar).isEmpty && r2.all isLocalChar &&
    (match r2.reverse.dropWhile isWordChar with
     | '.' :: rest => !(r2.reverse.takeWhile isWordChar).isEmpty && !rest.isEmpty
     | _ => false)

/-- `series.str.contains(emailRegex, na=False)` on one cell: a NaN or
non-string cell yields `False` (so it counts as NOT matching and is
flagged), and a string cell is matched against the anchored regex. -/
def cellMatchesEmail : Cell → Bool
  | Cell.str s => matchEmailChars s.data
  | _ => false

/-- The rows flagged by the column-level email sweep, with their 0-based
index: exactly the rows whose email cell does not match the regex. -/
def invalidEmailRows (emails : List Cell) : List (Nat × Cell) :=
  emails.enum.filter (fun p => !cellMatchesEmail p.2)

/-- The email-format findings of `validate_formats_and_values`: nothing when
the attorneys table has no `email` column; otherwise one success finding,
or a summary naming the number of flagged rows followed by one detail per
flagged row. -/
def emailFindings (a : Table) : List String :=
  if a.cols.contains "email" then
    let inv := invalidEmailRows (a.rows.map (fun r => getCell r "email"))
    if inv.isEmpty then ["✅ All emails are correctly formatted."]
    else ("❌ Invalid email format(s) found: " ++ toString inv.length ++ " row(s)")
      :: inv.map (fun p => "❌ Invalid email at row " ++ toString (p.1 + 2)
           ++ ": value = " ++ pyStr p.2)
  else []

/-- Digits of a numeral to its value, `['2','4'] ↦ 24`. -/
def digitsToNat (l : List Char) : Nat := l.foldl (fun n c => n * 10 + (c.toNat - 48)) 0

/-- Non-empty all-digit character list. -/
def allDigits (l : List Char) : Bool := !l.isEmpty && l.all Char.isDigit

/-- Gregorian leap year, as used by Python `datetime`. -/
def isLeap (y : Nat) : Bool := (y % 4 == 0 && y % 100 != 0) || (y % 400 == 0)

/-- Days of month `m` of year `y` in the proleptic Gregorian calendar. -/
def daysInMonth (y m : Nat) : Nat :=
  if m == 2 then (if isLeap y then 29 else 28)
  else if m == 4 || m == 6 || m == 9 || m == 11 then 30
  else 31

/-- Python `datetime.strptime(s, "%Y-%m-%d")` succeeding: exactly three
dash-separated all-digit fields of at most 4, 2 and 2 digits, a year of
at least 1, a month in 1..12, and a day valid for that calendar month. -/
def validYMD (s : String) : Bool :=
  match splitOnChar '-' s.data with
  | [ys, ms, ds] =>
    allDigits ys && decide (ys.length ≤ 4) && allDigits ms && decide (ms.length ≤ 2)
      && allDigits ds && decide (ds.length ≤ 2) &&
    (let y := digitsToNat ys
     let m := digitsToNat ms
     let d := digitsToNat ds
     decide (1 ≤ y) && decide (1 ≤ m) && decide (m ≤ 12) && decide (1 ≤ d)
       && decide (d ≤ daysInMonth y m))
  | _ => false

/-- Pydantic v2 lax validation of an `int`-typed field: ints pass, integral
floats are coerced, numeric strings are parsed, everything else (NaN
included) is a validation error. -/
def pyIntField : Cell → Except String Unit
  | Cell.int _ => Except.ok ()
  | Cell.float q =>
      if q.den == 1 then Except.ok ()
      else Except.error "Input should be a valid integer, got a number with a fractional part"
  | Cell.str s =>
      match s.toInt? with
      | some _ => Except.ok ()
      | none => Except.error "Input should be a valid integer, unable to parse string as an integer"
  | Cell.na => Except.error "Input should be a valid integer"

/-- Pydantic v2 validation of a `str`-typed field: only a string cell passes;
ints, floats and NaN are `Input should be a valid string` errors. -/
def pyStrField : Cell → Except String String
  | Cell.str s => Except.ok s
  | _ => Except.error "Input should be a valid string"

/-- Pydantic `EmailStr` (the external `email-validator` package), modelled as
the same `local@domain.tld` shape the column-level regex enforces. -/
def pyEmailField (c : Cell) : Except String Unit := do
  let s ← pyStrField c
  if matchEmailChars s.data then Except.ok ()
  else Except.error "value is not a valid email address"

/-- `BaseValidatorModel.parse_date_field` on an already string-typed value
(the date validators run in mode `after`): the empty string passes, a
strict `YYYY-MM-DD` calendar date passes, anything else raises the
`Invalid ... format` ValueError, which Pydantic reports prefixed with
`Value error, `. -/
def parse_date_field (field_name : String) (v : String) : Except String Unit :=
  if v == "" then Except.ok ()
  else if validYMD v then Except.ok ()
  else Except.error ("Value error, Invalid " ++ field_name ++ " format (expected YYYY-MM-DD)")

/-- A `str`-typed date field with the model's `parse_date_field` validator. -/
def pyDateField (field_name : String) (c : Cell) : Except String Unit := do
  let s ← pyStrField c
  parse_date_field field_name s

/-- The `status` field of `CaseModel`: a string in the literal enum set. -/
def pyStatusField (c : Cell) : Except String Unit := do
  let s ← pyStrField c
  if s == "open" || s == "closed" || s == "pending" then Except.ok ()
  else Except.error ("Value error, Invalid status \x27" ++ s
    ++ "\x27, must be one of \x7b\x27open\x27, \x27closed\x27, \x27pending\x27\x7d")

/-- Python `float(s)` on the decimal subset relevant here (optional sign,
digits, optional fractional part); exponent/`inf`/`nan` spellings are not
modelled. -/
def pyFloatOfString (s : String) : Option Rat :=
  let p := match s.data with
    | '-' :: t => ((-1 : Int), t)
    | '+' :: t => ((1 : Int), t)
    | cs => ((1 : Int), cs)
  match splitOnChar '.' p.2 with
  | [ip] => if allDigits ip then some ((p.1 * (digitsToNat ip : Int) : Int) : Rat) else none
  | [ip, fp] =>
    if (allDigits ip || ip.isEmpty) && (allDigits fp || fp.isEmpty)
        && !(ip.isEmpty && fp.isEmpty) then
      some (((p.1 * ((digitsToNat ip * 10 ^ fp.length + digitsToNat fp : Nat) : Int) : Int) : Rat)
        / ((10 ^ fp.length : Nat) : Rat))
    else none
  | _ => none

/-- The `hours` field of `TimeEntryModel`: Pydantic coerces to `float` first
(ints and numeric strings pass, NaN is an accepted float), then
`validate_hours` rejects negative values. A NaN cell therefore passes:
`float("nan") < 0` is `False` in Python. -/
def pyHoursField : Cell → Except String Unit
  | Cell.int n =>
      if n < 0 then Except.error "Value error, hours cannot be negative" else Except.ok ()
  | Cell.float q =>
      if q < 0 then Except.error "Value error, hours cannot be negative" else Except.ok ()
  | Cell.str s =>
      match pyFloatOfString s with
      | some q =>
          if q < 0 then Except.error "Value error, hours cannot be negative" else Except.ok ()
      | none => Except.error "Input should be a valid number, unable to parse string as a number"
  | Cell.na => Except.ok ()

/-- One field's contribution to a Pydantic error report: nothing when the
field validates, the `   - field: message` line when it fails, and the
`Field required` line when the row has no such key. -/
def fieldResult (r : Row) (name : String) (check : Cell → Except String Unit) : List String :=
  match r.lookup name with
  | none => ["   - " ++ name ++ ": Field required"]
  | some c =>
    match check c with
    | Except.ok _ => []
    | Except.error m => ["   - " ++ name ++ ": " ++ m]

/-- The collected field errors of `AttorneyModel(**row)`, in field
declaration order (Pydantic collects every failing field). -/
def attorneyRowErrors (r : Row) : List String :=
  fieldResult r "attorney_id" pyIntField ++
  fieldResult r "first_name" (fun c => (pyStrField c).map (fun _ => ())) ++
  fieldResult r "last_name" (fun c => (pyStrField c).map (fun _ => ())) ++
  fieldResult r "email" pyEmailField ++
  fieldResult r "department" (fun c => (pyStrField c).map (fun _ => ())) ++
  fieldResult r "bar_admission_date" (pyDateField "bar_admission_date")

/-- The collected field errors of `CaseModel(**row)`. -/
def caseRowErrors (r : Row) : List String :=
  fieldResult r "case_id" pyIntField ++
  fieldResult r "attorney_id" pyIntField ++
  fieldResult r "title" (fun c => (pyStrField c).map (fun _ => ())) ++
  fieldResult r "status" pyStatusField ++
  fieldResult r "start_date" (pyDateField "start_date") ++
  fieldResult r "closed_date" (pyDateField "closed_date")

/-- The collected field errors of `TimeEntryModel(**row)`. -/
def timeEntryRowErrors (r : Row) : List String :=
  fieldResult r "entry_id" pyIntField ++
  fieldResult r "case_id" pyIntField ++
  fieldResult r "attorney_id" pyIntField ++
  fieldResult r "hours" pyHoursField ++
  fieldResult r "date" (pyDateField "date")

/-- The findings of one row-level Pydantic sweep: for each failing row, in
source order, a `Row {i+2} ... failed Pydantic validation:` header
followed by one line per failing field. -/
def pydanticFindings (header : Nat → String) (errsOf : Row → List String) (t : Table) : List String :=
  (t.rows.enum.map (fun p =>
    let errs := errsOf p.2
    if errs.isEmpty then [] else header (p.1 + 2) :: errs)).flatten

/-- `pd.to_datetime(cell, errors="coerce")` succeeding, approximated on the
inputs this development evaluates it at: NaN coerces to NaT; numbers
parse (as epochs); a string parses when it is a strict `YYYY-MM-DD`
calendar date. (The real parser accepts further formats; none of the
theorems below depend on a string outside this subset parsing or not.) -/
def pdDateParseOk : Cell → Bool
  | Cell.na => false
  | Cell.int _ => true
  | Cell.float _ => true
  | Cell.str s => validYMD s

/-- The rows flagged by one column-level date sweep, with 0-based index:
`parsed.isna() & col.notna()`, i.e. present cells that failed to parse.
An absent (NaN) cell is never flagged here. -/
def invalidDateRows (cells : List Cell) : List (Nat × Cell) :=
  cells.enum.filter (fun p => !(p.2 == Cell.na) && !pdDateParseOk p.2)

/-- One column-level date sweep of `validate_formats_and_values`: nothing
when the column is absent; otherwise a success finding or a summary plus
one detail finding per flagged row. -/
def dateColFindings (t : Table) (col : String) : List String :=
  if t.cols.contains col then
    let inv := invalidDateRows (t.rows.map (fun r => getCell r col))
    if inv.isEmpty then ["✅ All \x27" ++ col ++ "\x27 values are valid or empty."]
    else ("❌ Invalid date format(s) found in \x27" ++ col ++ "\x27: "
        ++ toString inv.length ++ " row(s)")
      :: inv.map (fun p => "❌ Invalid \x27" ++ col ++ "\x27 at row " ++ toString (p.1 + 2)
           ++ ": value = " ++ pyStr p.2)
  else []

/-- `cell in {"open", "closed", "pending"}` under pandas `isin`: exact value
equality, so NaN and non-string cells are not in the set. -/
def statusAllowed (c : Cell) : Bool :=
  c == Cell.str "open" || c == Cell.str "closed" || c == Cell.str "pending"

/-- The status-enum sweep of `validate_formats_and_values` on the cases
table: rows whose `status` cell is outside the allowed set are flagged. -/
def statusColFindings (t : Table) : List String :=
  if t.cols.contains "status" then
    let inv := (t.rows.map (fun r => getCell r "status")).enum.filter
      (fun p => !statusAllowed p.2)
    if inv.isEmpty then ["✅ All status values are valid."]
    else ("❌ Invalid status values found: " ++ toString inv.length ++ " row(s)")
      :: inv.map (fun p => "❌ Invalid status at row " ++ toString (p.1 + 2)
           ++ ": value = " ++ pyStr p.2)
  else []

/-- All findings appended by `validate_formats_and_values`, in the method's
order: email sweep, attorneys row models, `bar_admission_date` column,
`start_date` and `closed_date` columns, status enum, cases row models,
time-entries row models. -/
def formatFindings (a c te : Table) : List String :=
  emailFindings a ++
  pydanticFindings (fun n => "❌ Row " ++ toString n ++ " failed Pydantic validation:")
    attorneyRowErrors a ++
  dateColFindings a "bar_admission_date" ++
  dateColFindings c "start_date" ++
  dateColFindings c "closed_date" ++
  statusColFindings c ++
  pydanticFindings (fun n => "❌ Row " ++ toString n ++ " in cases file failed Pydantic validation:")
    caseRowErrors c ++
  pydanticFindings (fun n => "❌ Row " ++ toString n ++ " in time_entries file failed Pydantic validation:")
    timeEntryRowErrors te

/-- `DataValidator.validate_formats_and_values` as a state step: it
dereferences the three DataFrames and appends its findings; none of its
sweeps raises (each is guarded by a column-presence test and the row
loops catch `ValidationError`). -/
def validate_formats_and_values (s : EngineState) : Except String EngineState := do
  let a ← reqDf s.attorneys_df
  let c ← reqDf s.cases_df
  let te ← reqDf s.time_entries_df
  pure (withFindings s (formatFindings a c te))

/-- `DataValidator.get_error_details`: the fallback success marker when the
accumulator is empty, else the newline-joined findings. -/
def get_error_details (s : EngineState) : String :=
  if s.error_details.isEmpty then "✅ No validation errors found."
  else String.intercalate "\n" s.error_details

/-- The post-load part of `run_all`: only when all three DataFrames are
present (`is not None` three times) run the three checks in order.
Exceptions escaping a check propagate to the caller. -/
def runChecks (t : String) (s1 : EngineState) : Except String EngineState :=
  match s1.attorneys_df, s1.cases_df, s1.time_entries_df with
  | some _, some _, some _ =>
      (check_required_columns s1).bind (fun s2 =>
        (validate_data_integrity t s2).bind (fun s3 =>
          validate_formats_and_values s3))
  | _, _, _ => Except.ok s1

/-- `DataValidator.run_all` at wall-clock timestamp `t`, with `la`, `lc`,
`lt` the outside-world results of the three CSV reads: load the data,
then run the guarded checks. -/
def run_all (t : String) (la lc lt : Except String Table) (s : EngineState) :
    Except String EngineState :=
  runChecks t (load_data la lc lt s)

/-! ### Concrete fixtures

Small concrete inputs used by the closed theorems and witnesses below: a
schema file with the shape described in the spec's external-interface
section, and tiny tables exercising particular findings. -/

/-- The declared schema: the two foreign-key relations of the cases and
time-entries tables, as `schema.yaml` declares them. -/
def stdSchema : Schema :=
  [("pro_bono_cases", [("foreign_keys", [("attorney_id", "attorneys.attorney_id")])]),
   ("time_entries", [("foreign_keys",
      [("case_id", "pro_bono_cases.case_id"), ("attorney_id", "attorneys.attorney_id")])])]

/-- A fully valid one-row attorneys table. -/
def okAttorneys : Table :=
  { cols := expected_attorneys,
    rows := [[("attorney_id", Cell.int 1), ("first_name", Cell.str "Ada"),
              ("last_name", Cell.str "Lov"), ("email", Cell.str "a@b.com"),
              ("department", Cell.str "IP"), ("bar_admission_date", Cell.str "2020-01-01")]] }

/-- A fully valid one-row cases table referencing attorney 1. -/
def okCases : Table :=
  { cols := expected_cases,
    rows := [[("case_id", Cell.int 1), ("attorney_id", Cell.int 1),
              ("title", Cell.str "T"), ("status", Cell.str "open"),
              ("start_date", Cell.str "2021-01-01"), ("closed_date", Cell.str "2021-02-01")]] }

/-- A fully valid one-row time-entries table referencing case 1, attorney 1. -/
def okTimeEntries : Table :=
  { cols := expected_time_entries,
    rows := [[("entry_id", Cell.int 1), ("case_id", Cell.int 1),
              ("attorney_id", Cell.int 1), ("hours", Cell.int 2),
              ("date", Cell.str "2021-01-02")]] }

/-- A cases table whose two rows both reference the unknown attorney 99. -/
def casesDup99 : Table :=
  { cols := expected_cases,
    rows := [[("case_id", Cell.int 1), ("attorney_id", Cell.int 99),
              ("title", Cell.str "T1"), ("status", Cell.str "open"),
              ("start_date", Cell.str "2021-01-01"), ("closed_date", Cell.str "2021-02-01")],
             [("case_id", Cell.int 2), ("attorney_id", Cell.int 99),
              ("title", Cell.str "T2"), ("status", Cell.str "open"),
              ("start_date", Cell.str "2021-01-01"), ("closed_date", Cell.str "2021-02-01")]] }

/-- The engine state of a run that loaded `okAttorneys` and `casesDup99`
under the declared schema (as `validate_data_integrity` sees it). -/
def stateDup99 : EngineState :=
  { emptyState with schema := stdSchema,
                    attorneys_df := some okAttorneys,
                    cases_df := some casesDup99,
                    time_entries_df := some okTimeEntries }

/-- Attorneys table whose second row has a malformed email (`@` missing). -/
def attorneysBadEmail : Table :=
  { cols := expected_attorneys,
    rows := [[("attorney_id", Cell.int 1), ("first_name", Cell.str "Ada"),
              ("last_name", Cell.str "Lov"), ("email", Cell.str "a@b.com"),
              ("department", Cell.str "IP"), ("bar_admission_date", Cell.str "2020-01-01")],
             [("attorney_id", Cell.int 2), ("first_name", Cell.str "Bob"),
              ("last_name", Cell.str "Roe"), ("email", Cell.str "bob.example.com"),
              ("department", Cell.str "Tax"), ("bar_admission_date", Cell.str "2020-01-02")]] }

/-- Attorneys table whose second row has an absent (NaN) email cell. -/
def attorneysNaEmail : Table :=
  { cols := expected_attorneys,
    rows := [[("attorney_id", Cell.int 1), ("first_name", Cell.str "Ada"),
              ("last_name", Cell.str "Lov"), ("email", Cell.str "a@b.com"),
              ("department", Cell.str "IP"), ("bar_admission_date", Cell.str "2020-01-01")],
             [("attorney_id", Cell.int 2), ("first_name", Cell.str "Bob"),
              ("last_name", Cell.str "Roe"), ("email", Cell.na),
              ("department", Cell.str "Tax"), ("bar_admission_date", Cell.str "2020-01-02")]] }

/-- A one-row attorneys table whose `bar_admission_date` cell is absent
(NaN), every other field valid. -/
def attorneysNaDate : Table :=
  { cols := expected_attorneys,
    rows := [[("attorney_id", Cell.int 1), ("first_name", Cell.str "Ada"),
              ("last_name", Cell.str "Lov"), ("email", Cell.str "a@b.com"),
              ("department", Cell.str "IP"), ("bar_admission_date", Cell.na)]] }

/-- The final engine state of a full run over the bad-email inputs (the run
succeeds; `emptyState` is an unreachable default). -/
def badEmailRunState : EngineState :=
  (run_all "20240101_120000" (Except.ok attorneysBadEmail) (Except.ok okCases)
    (Except.ok okTimeEntries) (mkDataValidator (Except.ok stdSchema))).toOption.getD emptyState

/-- The final engine state of a full run over the fully valid inputs. -/
def okRunState : EngineState :=
  (run_all "20240101_120000" (Except.ok okAttorneys) (Except.ok okCases)
    (Except.ok okTimeEntries) (mkDataValidator (Except.ok stdSchema))).toOption.getD emptyState

/-- Everything observable about a written report except its timestamped file
name: its counts and its finding list. -/
def reportData (r : Report) : Counts × List String := (r.counts, r.details)

/-- Everything a caller observes of a run apart from report file names: the
error outcome, the finding sequence, and the content of every written
report. -/
def runObservation (e : Except String EngineState) :
    Except String (List String × List (Counts × List String)) :=
  e.map (fun s => (s.error_details, s.reports.map reportData))

/-- Whether a load result is a failure. -/
def isErrB (x : Except String Table) : Bool :=
  match x with
  | Except.error _ => true
  | Except.ok _ => false

/-- The state right after `validate_data_integrity` on `stateDup99`. -/
def dup99AfterIntegrity : EngineState :=
  (validate_data_integrity "20240101_120000" stateDup99).toOption.getD emptyState

/-- The state right after `validate_formats_and_values` on
`dup99AfterIntegrity`. -/
def dup99AfterFormats : EngineState :=
  (validate_formats_and_values dup99AfterIntegrity).toOption.getD emptyState

/-- The state `validate_data_integrity` produces when it succeeds after
appending findings `fs` with report counts `cts` at timestamp `t`:
findings appended, and the two report files recorded with the finding
list as it stands at export time. -/
def exportedState (t : String) (s : EngineState) (fs : List String) (cts : Counts) :
    EngineState :=
  { attorneys_df := s.attorneys_df, cases_df := s.cases_df,
    time_entries_df := s.time_entries_df, schema := s.schema,
    error_details := s.error_details ++ fs,
    reports := s.reports ++
      [{ filename := "validation_report_" ++ t ++ ".csv", counts := cts,
         details := s.error_details ++ fs },
       { filename := "validation_report_" ++ t ++ ".json", counts := cts,
         details := s.error_details ++ fs }] }

/-! ### Helper lemmas -/

theorem withFindings_attorneys_df (s : EngineState) (fs : List String) :
    (withFindings s fs).attorneys_df = s.attorneys_df := rfl

theorem withFindings_cases_df (s : EngineState) (fs : List String) :
    (withFindings s fs).cases_df = s.cases_df := rfl

theorem withFindings_time_entries_df (s : EngineState) (fs : List String) :
    (withFindings s fs).time_entries_df = s.time_entries_df := rfl

theorem withFindings_reports (s : EngineState) (fs : List String) :
    (withFindings s fs).reports = s.reports := rfl

theorem withFindings_error_details (s : EngineState) (fs : List String) :
    (withFindings s fs).error_details = s.error_details ++ fs := rfl

theorem contains_iff_mem {α : Type} [BEq α] [LawfulBEq α] (l : List α) (v : α) :
    l.contains v = true ↔ v ∈ l := by
  simp [List.contains, List.elem_iff]

theorem checkRequiredFindings_ne_nil (a c t : Table) : checkRequiredFindings a c t ≠ [] := by
  simp only [checkRequiredFindings]
  cases hma : (missingCols expected_attorneys a).isEmpty <;>
    cases hmc : (missingCols expected_cases c).isEmpty <;>
      cases hmt : (missingCols expected_time_entries t).isEmpty <;>
        simp

theorem check_required_some (s : EngineState) (a c t : Table)
    (ha : s.attorneys_df = some a) (hc : s.cases_df = some c)
    (ht : s.time_entries_df = some t) :
    check_required_columns s = Except.ok (withFindings s (checkRequiredFindings a c t)) := by
  simp [check_required_columns, ha, hc, ht, reqDf, Bind.bind, Except.bind, Pure.pure, Except.pure]

theorem formats_some (s : EngineState) (a c te : Table)
    (ha : s.attorneys_df = some a) (hc : s.cases_df = some c)
    (ht : s.time_entries_df = some te) :
    validate_formats_and_values s = Except.ok (withFindings s (formatFindings a c te)) := by
  simp [validate_formats_and_values, ha, hc, ht, reqDf, Bind.bind, Except.bind,
    Pure.pure, Except.pure]

theorem formats_ok_shape (s s' : EngineState)
    (h : validate_formats_and_values s = Except.ok s') :
    s'.reports = s.reports ∧ s.error_details <+: s'.error_details := by
  cases ha : s.attorneys_df with
  | none =>
    simp [validate_formats_and_values, ha, reqDf, Bind.bind, Except.bind] at h
  | some a =>
    cases hc : s.cases_df with
    | none =>
      simp [validate_formats_and_values, ha, hc, reqDf, Bind.bind, Except.bind] at h
    | some c =>
      cases ht : s.time_entries_df with
      | none =>
        simp [validate_formats_and_values, ha, hc, ht, reqDf, Bind.bind, Except.bind] at h
      | some te =>
        rw [formats_some s a c te ha hc ht] at h
        cases h
        exact ⟨rfl, List.prefix_append _ _⟩

theorem integrity_err_findings (t : String) (s : EngineState) (e : String)
    (hI : integrityFindings s = Except.error e) :
    validate_data_integrity t s = Except.error e := by
  unfold validate_data_integrity
  rw [hI]
  rfl

theorem integrity_err_counts (t : String) (s : EngineState) (fs : List String) (e : String)
    (hI : integrityFindings s = Except.ok fs)
    (hR : reportCounts (withFindings s fs) = Except.error e) :
    validate_data_integrity t s = Except.error e := by
  unfold validate_data_integrity
  rw [hI]
  show export_validation_report t (withFindings s fs) = Except.error e
  unfold export_validation_report
  rw [hR]
  rfl

theorem integrity_ok (t : String) (s : EngineState) (fs : List String) (cts : Counts)
    (hI : integrityFindings s = Except.ok fs)
    (hR : reportCounts (withFindings s fs) = Except.ok cts) :
    validate_data_integrity t s = Except.ok (exportedState t s fs cts) := by
  unfold validate_data_integrity
  rw [hI]
  show export_validation_report t (withFindings s fs) = _
  unfold export_validation_report
  rw [hR]
  rfl

theorem isLocalChar_not_whitespace (c : Char) (h : isLocalChar c = true) :
    c.isWhitespace = false := by
  by_contra hw
  rw [Bool.not_eq_false] at hw
  simp only [Char.isWhitespace, Bool.or_eq_true, decide_eq_true_eq] at hw
  rcases hw with ((h1 | h1) | h1) | h1 <;> subst h1 <;> exact absurd h (by decide)

theorem matchEmail_has_at (cs : List Char) (h : matchEmailChars cs = true) :
    '@' ∈ cs := by
  cases hd : cs.dropWhile isLocalChar with
  | nil => rw [matchEmailChars, hd] at h; cases h
  | cons ch r2 =>
    rw [matchEmailChars, hd] at h
    simp only [Bool.and_eq_true, beq_iff_eq] at h
    have hmem : ch ∈ cs := by
      have h1 : ch ∈ cs.dropWhile isLocalChar := by
        rw [hd]; exact List.mem_cons_self _ _
      exact (List.dropWhile_sublist (p := isLocalChar) (l := cs)).subset h1
    rw [← h.1.1.1]
    exact hmem

theorem matchEmail_no_whitespace (cs : List Char) (h : matchEmailChars cs = true) :
    ∀ c ∈ cs, c.isWhitespace = false := by
  cases hd : cs.dropWhile isLocalChar with
  | nil => rw [matchEmailChars, hd] at h; cases h
  | cons ch r2 =>
    rw [matchEmailChars, hd] at h
    simp only [Bool.and_eq_true, beq_iff_eq] at h
    intro c hc
    have hsplit : cs.takeWhile isLocalChar ++ ch :: r2 = cs := by
      rw [← hd]; exact List.takeWhile_append_dropWhile isLocalChar cs
    rw [← hsplit] at hc
    rcases List.mem_append.mp hc with h1 | h1
    · exact isLocalChar_not_whitespace c (List.mem_takeWhile_imp h1)
    · rcases List.mem_cons.mp h1 with h2 | h2
      · subst h2; rw [h.1.1.1]; decide
      · exact isLocalChar_not_whitespace c
          (by
            have := h.1.2
            rw [List.all_eq_true] at this
            exact this c h2)

theorem matchEmail_without_at (cs : List Char) (hna : '@' ∉ cs) :
    matchEmailChars cs = false := by
  by_contra hm
  rw [Bool.not_eq_false] at hm
  exact hna (matchEmail_has_at cs hm)

theorem length_filter_enumFrom (q : Cell → Bool) (l : List Cell) :
    ∀ n : Nat, ((List.enumFrom n l).filter (fun p => q p.2)).length = (l.filter q).length := by
  induction l with
  | nil => intro n; rfl
  | cons x xs ih =>
    intro n
    cases hq : q x <;> simp [List.enumFrom, List.filter_cons, hq, ih]

theorem runChecks_obs (t1 t2 : String) (s1 : EngineState) :
    runObservation (runChecks t1 s1) = runObservation (runChecks t2 s1) := by
  cases hA : s1.attorneys_df with
  | none => simp [runChecks, hA]
  | some a =>
    cases hC : s1.cases_df with
    | none => simp [runChecks, hA, hC]
    | some c =>
      cases hT : s1.time_entries_df with
      | none => simp [runChecks, hA, hC, hT]
      | some te =>
        simp only [runChecks, hA, hC, hT]
        rw [check_required_some s1 a c te hA hC hT]
        show runObservation ((validate_data_integrity t1
              (withFindings s1 (checkRequiredFindings a c te))).bind
            (fun s3 => validate_formats_and_values s3)) =
          runObservation ((validate_data_integrity t2
              (withFindings s1 (checkRequiredFindings a c te))).bind
            (fun s3 => validate_formats_and_values s3))
        cases hI : integrityFindings (withFindings s1 (checkRequiredFindings a c te)) with
        | error e =>
          rw [integrity_err_findings t1 _ e hI, integrity_err_findings t2 _ e hI]
        | ok fs =>
          cases hR : reportCounts
              (withFindings (withFindings s1 (checkRequiredFindings a c te)) fs) with
          | error e =>
            rw [integrity_err_counts t1 _ fs e hI hR, integrity_err_counts t2 _ fs e hI hR]
          | ok cts =>
            rw [integrity_ok t1 _ fs cts hI hR, integrity_ok t2 _ fs cts hI hR]
            show runObservation (validate_formats_and_values
                (exportedState t1 (withFindings s1 (checkRequiredFindings a c te)) fs cts)) =
              runObservation (validate_formats_and_values
                (exportedState t2 (withFindings s1 (checkRequiredFindings a c te)) fs cts))
            rw [formats_some
                (exportedState t1 (withFindings s1 (checkRequiredFindings a c te)) fs cts)
                a c te hA hC hT,
              formats_some
                (exportedState t2 (withFindings s1 (checkRequiredFindings a c te)) fs cts)
                a c te hA hC hT]
            simp [runObservation, reportData, withFindings, exportedState, Except.map]

/-! ### Claim theorems -/

/-- C1: against the claim that `run_all` never raises to the caller, loading
three well-formed tables with a missing/malformed schema file (the
constructor records a finding and keeps the empty schema `{}`) makes
`validate_data_integrity` raise `KeyError: pro_bono_cases` out of
`run_all` at the unguarded lookup
`self.schema["pro_bono_cases"]["foreign_keys"]["attorney_id"]`. -/
theorem c1_missing_schema_run_all_raises :
    run_all "20240101_120000" (Except.ok okAttorneys) (Except.ok okCases)
        (Except.ok okTimeEntries)
        (mkDataValidator (Except.error "schema.yaml: No such file or directory"))
      = Except.error "KeyError: pro_bono_cases" := by
  decide

/-- C2 counterexample: on a cases table whose two rows both hold the unknown
`attorney_id` 99, the summary finding states the count 1 (the number of
distinct violating values) while two per-row detail findings are
appended, so the count in the summary does not equal the number of
detail findings. -/
theorem c2_counterexample_count_vs_details :
    casesFKFindings stateDup99 = Except.ok
      ["Foreign key mismatch: 1 unknown attorney_id(s) found in cases file.",
       "❌ Unknown attorney_id in cases file at row 2: value = 99",
       "❌ Unknown attorney_id in cases file at row 3: value = 99"] ∧
    (setDiff [Cell.int 99, Cell.int 99] [Cell.int 1]).length = 1 ∧
    (fkDetailFindings [Cell.int 99, Cell.int 99]
      (setDiff [Cell.int 99, Cell.int 99] [Cell.int 1]) "attorney_id" "cases").length = 2 := by
  decide

/-- C2 (amended): the violating set is precisely the distinct referencing
values absent from the target column (without duplicates), the summary
count is its cardinality, and the per-row detail findings number one per
referencing ROW holding a violating value — at least the summary count,
and more whenever a violating value repeats. -/
theorem c2_fk_violating_values (src tgt : List Cell) (colName fileName : String) :
    (∀ v, v ∈ setDiff src tgt ↔ v ∈ src ∧ v ∉ tgt) ∧
    (setDiff src tgt).Nodup ∧
    (fkDetailFindings src (setDiff src tgt) colName fileName).length
      = (src.filter (fun v => (setDiff src tgt).contains v)).length ∧
    (setDiff src tgt).length
      ≤ (fkDetailFindings src (setDiff src tgt) colName fileName).length := by
  have hlen : (fkDetailFindings src (setDiff src tgt) colName fileName).length
      = (src.filter (fun v => (setDiff src tgt).contains v)).length := by
    rw [fkDetailFindings, List.length_map]
    simpa [List.enum] using
      length_filter_enumFrom (fun v => (setDiff src tgt).contains v) src 0
  refine ⟨?_, List.Nodup.filter _ (List.nodup_dedup src), hlen, ?_⟩
  · intro v
    simp only [setDiff, List.mem_filter, List.mem_dedup, Bool.not_eq_true']
    constructor
    · rintro ⟨h1, h2⟩
      refine ⟨h1, ?_⟩
      intro hv
      rw [← contains_iff_mem tgt v] at hv
      rw [h2] at hv
      cases hv
    · rintro ⟨h1, h2⟩
      refine ⟨h1, ?_⟩
      rw [← Bool.not_eq_true, contains_iff_mem]
      exact h2
  · rw [hlen]
    apply List.Subperm.length_le
    apply List.Nodup.subperm (List.Nodup.filter _ (List.nodup_dedup src))
    intro v hv
    rw [List.mem_filter]
    have hsrc : v ∈ src := List.mem_dedup.mp (List.mem_filter.mp hv).1
    exact ⟨hsrc, (contains_iff_mem _ v).mpr hv⟩

/-- C2 amended-claim witness at a concrete relation: two rows with the same
violating value give one distinct violating value but two detail rows,
with the cardinality bound holding. -/
theorem c2_fk_violating_values_witness :
    (setDiff [Cell.int 99, Cell.int 99] [Cell.int 1]).length
      ≤ (fkDetailFindings [Cell.int 99, Cell.int 99]
          (setDiff [Cell.int 99, Cell.int 99] [Cell.int 1]) "attorney_id" "cases").length ∧
    (Cell.int 99 ∈ setDiff [Cell.int 99, Cell.int 99] [Cell.int 1]
      ↔ Cell.int 99 ∈ [Cell.int 99, Cell.int 99] ∧ Cell.int 99 ∉ [Cell.int 1]) :=
  ⟨(c2_fk_violating_values [Cell.int 99, Cell.int 99] [Cell.int 1]
      "attorney_id" "cases").2.2.2,
   (c2_fk_violating_values [Cell.int 99, Cell.int 99] [Cell.int 1]
      "attorney_id" "cases").1 (Cell.int 99)⟩

/-- C3 counterexample: a full run over a table with one malformed email
completes, its accumulator contains the email-sweep summary finding, and
yet neither written report (the CSV one nor the JSON one) contains that
finding in its detail list, because the report is exported at the end of
the integrity check, before the field validator runs. -/
theorem c3_counterexample_report_misses_email_finding :
    (run_all "20240101_120000" (Except.ok attorneysBadEmail) (Except.ok okCases)
        (Except.ok okTimeEntries) (mkDataValidator (Except.ok stdSchema))).isOk = true ∧
    "❌ Invalid email format(s) found: 1 row(s)" ∈ badEmailRunState.error_details ∧
    badEmailRunState.reports.length = 2 ∧
    badEmailRunState.reports.all
      (fun r => !(r.details.contains "❌ Invalid email format(s) found: 1 row(s)")) = true := by
  decide

/-- C3 (amended): the reports written by a successful integrity step hold, as
their ordered detail array, exactly the accumulator as it stands at the
end of the integrity check; the field validator appends its findings
strictly afterwards and writes no report, so the report's finding list is
a (strict, when format findings exist) prefix of the run's final finding
list rather than the complete one. -/
theorem c3_report_snapshot (t : String) (s s1 s2 : EngineState)
    (h1 : validate_data_integrity t s = Except.ok s1)
    (h2 : validate_formats_and_values s1 = Except.ok s2) :
    s1.reports.map Report.details
      = s.reports.map Report.details ++ [s1.error_details, s1.error_details] ∧
    s2.reports = s1.reports ∧
    s.error_details <+: s1.error_details ∧
    s1.error_details <+: s2.error_details := by
  cases hI : integrityFindings s with
  | error e => rw [integrity_err_findings t s e hI] at h1; cases h1
  | ok fs =>
    cases hR : reportCounts (withFindings s fs) with
    | error e => rw [integrity_err_counts t s fs e hI hR] at h1; cases h1
    | ok cts =>
      rw [integrity_ok t s fs cts hI hR] at h1
      cases h1
      obtain ⟨hrep, hpre⟩ := formats_ok_shape _ _ h2
      refine ⟨?_, hrep, ?_, hpre⟩
      · simp [exportedState]
      · exact List.prefix_append _ _

/-- C3 amended-claim witness on the duplicate-99 fixture. -/
theorem c3_report_snapshot_witness :
    dup99AfterIntegrity.reports.map Report.details
      = stateDup99.reports.map Report.details
        ++ [dup99AfterIntegrity.error_details, dup99AfterIntegrity.error_details] ∧
    dup99AfterFormats.reports = dup99AfterIntegrity.reports ∧
    stateDup99.error_details <+: dup99AfterIntegrity.error_details ∧
    dup99AfterIntegrity.error_details <+: dup99AfterFormats.error_details :=
  c3_report_snapshot "20240101_120000" stateDup99 dup99AfterIntegrity dup99AfterFormats
    (by decide) (by decide)

/-- C4 counterexample: when all three reads fail, only the first failure is
recorded as a finding — the claim's "each failure is recorded" would
require the cases-file and time-entries failures to appear as well. -/
theorem c4_counterexample_only_first_failure_recorded :
    (load_data (Except.error "attorneys boom") (Except.error "cases boom")
        (Except.error "te boom") (mkDataValidator (Except.ok stdSchema))).error_details
      = ["Failed to load files: attorneys boom"] ∧
    "Failed to load files: cases boom" ∉
      (load_data (Except.error "attorneys boom") (Except.error "cases boom")
        (Except.error "te boom") (mkDataValidator (Except.ok stdSchema))).error_details := by
  decide

/-- C4 (amended): the three reads run sequentially inside one guarded block:
the first failing read aborts the remaining reads and records exactly one
load-failure finding, DataFrames already read are kept; and whenever any
read failed, `run_all` stops after loading — the resulting state is
exactly the post-load state, with no check executed. -/
theorem c4_sequential_load_gate (t e : String) (sl : Except String Schema)
    (la lc lt : Except String Table) :
    (la = Except.error e →
      load_data la lc lt (mkDataValidator sl)
        = withFindings (mkDataValidator sl) ["Failed to load files: " ++ e]) ∧
    (∀ a, la = Except.ok a → lc = Except.error e →
      load_data la lc lt (mkDataValidator sl)
        = withFindings { mkDataValidator sl with attorneys_df := some a }
            ["Failed to load files: " ++ e]) ∧
    (∀ a c, la = Except.ok a → lc = Except.ok c → lt = Except.error e →
      load_data la lc lt (mkDataValidator sl)
        = withFindings { mkDataValidator sl with attorneys_df := some a, cases_df := some c }
            ["Failed to load files: " ++ e]) ∧
    ((isErrB la || isErrB lc || isErrB lt) = true →
      run_all t la lc lt (mkDataValidator sl)
        = Except.ok (load_data la lc lt (mkDataValidator sl))) := by
  refine ⟨?_, ?_, ?_, ?_⟩
  · rintro rfl
    rfl
  · rintro a rfl rfl
    rfl
  · rintro a c rfl rfl rfl
    rfl
  · intro h
    cases sl <;> cases la <;> cases lc <;> cases lt <;>
      simp [isErrB] at h ⊢ <;>
        simp [run_all, runChecks, load_data, mkDataValidator, emptyState, withFindings]

/-- C4 amended-claim witness: a failing attorneys read with a failing cases
read records the single finding, and a failing time-entries read makes
`run_all` return the bare post-load state. -/
theorem c4_sequential_load_gate_witness :
    load_data (Except.error "boom") (Except.error "boom2") (Except.ok okTimeEntries)
        (mkDataValidator (Except.ok stdSchema))
      = withFindings (mkDataValidator (Except.ok stdSchema)) ["Failed to load files: boom"] ∧
    run_all "20240101_120000" (Except.ok okAttorneys) (Except.ok okCases)
        (Except.error "boom3") (mkDataValidator (Except.ok stdSchema))
      = Except.ok (load_data (Except.ok okAttorneys) (Except.ok okCases)
          (Except.error "boom3") (mkDataValidator (Except.ok stdSchema))) :=
  ⟨(c4_sequential_load_gate "20240101_120000" "boom" (Except.ok stdSchema)
      (Except.error "boom") (Except.error "boom2") (Except.ok okTimeEntries)).1 rfl,
   (c4_sequential_load_gate "20240101_120000" "boom3" (Except.ok stdSchema)
      (Except.ok okAttorneys) (Except.ok okCases) (Except.error "boom3")).2.2.2 (by decide)⟩

/-- C5 counterexample: the duplicate finding appended to the accumulator is
one fixed string — identical for a table with one duplicated row and for
a table with two, and containing no digit at all — so it names neither
the count of duplicates nor the identifiers. -/
theorem c5_counterexample_fixed_duplicate_finding :
    dupFindings [Cell.int 1, Cell.int 1]
      = dupFindings [Cell.int 1, Cell.int 1, Cell.int 2, Cell.int 2] ∧
    dupFindings [Cell.int 1, Cell.int 1]
      = ["Duplicate attorney_id values found in attorneys file"] ∧
    dupCount [Cell.int 1, Cell.int 1] = 1 ∧
    dupCount [Cell.int 1, Cell.int 1, Cell.int 2, Cell.int 2] = 2 ∧
    ((dupFindings [Cell.int 1, Cell.int 1]).headD "").data.all
      (fun ch => !ch.isDigit) = true := by
  decide

/-- C5 (amended): whenever the attorneys identifier column holds a repeated
value the duplicate check appends exactly one finding with a fixed text
naming neither count nor identifiers; the number of duplicated rows is
positive and is reported separately, as the numeric `dupCount` metric of
the exported report. -/
theorem c5_duplicate_check (vals : List Cell) (h : hasDup vals = true) :
    dupFindings vals = ["Duplicate attorney_id values found in attorneys file"] ∧
    (dupFindings vals).length = 1 ∧
    0 < dupCount vals ∧
    dupCount vals = vals.length - vals.dedup.length := by
  have hlt : vals.dedup.length < vals.length := by
    have hle : vals.dedup.length ≤ vals.length := (List.dedup_sublist vals).length_le
    have hne : vals.dedup.length ≠ vals.length := by
      simpa [hasDup, bne_iff_ne] using h
    omega
  refine ⟨by simp [dupFindings, h], by simp [dupFindings, h], ?_, rfl⟩
  simp only [dupCount]
  omega

/-- C5 amended-claim witness at a two-row duplicate. -/
theorem c5_duplicate_check_witness :
    dupFindings [Cell.int 7, Cell.int 7]
      = ["Duplicate attorney_id values found in attorneys file"] ∧
    (dupFindings [Cell.int 7, Cell.int 7]).length = 1 ∧
    0 < dupCount [Cell.int 7, Cell.int 7] ∧
    dupCount [Cell.int 7, Cell.int 7]
      = [Cell.int 7, Cell.int 7].length - [Cell.int 7, Cell.int 7].dedup.length :=
  c5_duplicate_check [Cell.int 7, Cell.int 7] (by decide)

/-- C6 counterexample: an attorneys row whose email cell is absent (NaN) IS
reported by the column-level email sweep (the `na=False` of
`str.contains` makes an absent cell count as non-matching), contradicting
the claim that an absent cell is not reported as an invalid email. -/
theorem c6_counterexample_absent_email_flagged :
    emailFindings attorneysNaEmail =
      ["❌ Invalid email format(s) found: 1 row(s)",
       "❌ Invalid email at row 3: value = nan"] ∧
    (attorneysNaEmail.rows.getD 1 []).lookup "email" = some Cell.na := by
  decide

/-- C6 (amended): the column-level email sweep flags a row exactly when its
email cell fails the anchored regex `[\w.-]+@[\w.-]+\.\w+`; any matching
value contains an `@` and no whitespace (so a value with the `@` removed
fails), and an empty-string or absent cell also fails and is therefore
reported. -/
theorem c6_email_format_check (emails : List Cell) (s : String) :
    (∀ p, p ∈ invalidEmailRows emails ↔ p ∈ emails.enum ∧ cellMatchesEmail p.2 = false) ∧
    ('@' ∉ s.data → cellMatchesEmail (Cell.str s) = false) ∧
    (cellMatchesEmail (Cell.str s) = true →
      '@' ∈ s.data ∧ ∀ ch ∈ s.data, ch.isWhitespace = false) ∧
    cellMatchesEmail Cell.na = false ∧
    cellMatchesEmail (Cell.str "") = false := by
  refine ⟨?_, ?_, ?_, rfl, by decide⟩
  · intro p
    simp [invalidEmailRows, List.mem_filter]
  · intro h
    exact matchEmail_without_at s.data h
  · intro h
    exact ⟨matchEmail_has_at s.data h, matchEmail_no_whitespace s.data h⟩

/-- C6 amended-claim witness at concrete cells: the stripped-`@` value fails,
a plain valid address has the `@` and no whitespace, NaN fails. -/
theorem c6_email_format_check_witness :
    cellMatchesEmail (Cell.str "ab.com") = false ∧
    ('@' ∈ "a@b.com".data ∧ ∀ ch ∈ "a@b.com".data, ch.isWhitespace = false) ∧
    cellMatchesEmail Cell.na = false :=
  ⟨(c6_email_format_check [] "ab.com").2.1 (by decide),
   (c6_email_format_check [] "a@b.com").2.2.1 (by decide),
   (c6_email_format_check [] "x").2.2.2.1⟩

/-- C7 counterexample: a row whose `bar_admission_date` cell is absent (NaN)
passes the column-level date sweep but is reported by the row-level
Pydantic layer (`str`-typed field rejects NaN), contradicting the claim
that an absent date is not reported as invalid by any layer of the field
validator. -/
theorem c7_counterexample_absent_date_flagged_by_row_model :
    pydanticFindings (fun n => "❌ Row " ++ toString n ++ " failed Pydantic validation:")
        attorneyRowErrors attorneysNaDate
      = ["❌ Row 2 failed Pydantic validation:",
         "   - bar_admission_date: Input should be a valid string"] ∧
    dateColFindings attorneysNaDate "bar_admission_date"
      = ["✅ All \x27bar_admission_date\x27 values are valid or empty."] ∧
    (attorneysNaDate.rows.getD 0 []).lookup "bar_admission_date" = some Cell.na := by
  decide

/-- C7 (amended): the column-level date sweep never flags an absent (NaN)
cell, and non-calendar values such as `2024-02-30` and `not_a_date` fail
both layers; but at the row-level model layer an absent/NaN date cell
fails (it is not a string), while only the present-but-empty string
passes there. -/
theorem c7_date_field_validation (cells : List Cell) (fn : String) :
    (∀ p ∈ invalidDateRows cells, p.2 ≠ Cell.na) ∧
    pdDateParseOk (Cell.str "2024-02-30") = false ∧
    pdDateParseOk (Cell.str "not_a_date") = false ∧
    pyDateField fn (Cell.str "2024-02-30")
      = Except.error ("Value error, Invalid " ++ fn ++ " format (expected YYYY-MM-DD)") ∧
    pyDateField fn (Cell.str "not_a_date")
      = Except.error ("Value error, Invalid " ++ fn ++ " format (expected YYYY-MM-DD)") ∧
    pyDateField fn (Cell.str "") = Except.ok () ∧
    pyDateField fn Cell.na = Except.error "Input should be a valid string" := by
  refine ⟨?_, by decide, by decide, rfl, rfl, rfl, rfl⟩
  intro p hp hna
  have hflag := (List.mem_filter.mp hp).2
  rw [hna] at hflag
  simp at hflag

/-- C7 amended-claim witness at concrete cells: the NaN cell is not among
the column-level flagged rows, and the empty string passes the model's
date parser. -/
theorem c7_date_field_validation_witness :
    (0, Cell.na) ∉ invalidDateRows [Cell.na] ∧
    pyDateField "bar_admission_date" (Cell.str "") = Except.ok () :=
  ⟨fun hmem => (c7_date_field_validation [Cell.na] "bar_admission_date").1 _ hmem rfl,
   (c7_date_field_validation [] "bar_admission_date").2.2.2.2.2.1⟩

/-- C8: the structural checker's per-table missing set is exactly the fixed
expected-column set minus the actual columns; when every difference is
empty a single `all present` finding is appended, and otherwise exactly
one finding per deficient table, each listing exactly that table's
missing columns. -/
theorem c8_structural_checker (a c te : Table) :
    (∀ col, col ∈ missingCols expected_attorneys a
      ↔ col ∈ expected_attorneys ∧ col ∉ a.cols) ∧
    (∀ col, col ∈ missingCols expected_cases c
      ↔ col ∈ expected_cases ∧ col ∉ c.cols) ∧
    (∀ col, col ∈ missingCols expected_time_entries te
      ↔ col ∈ expected_time_entries ∧ col ∉ te.cols) ∧
    (((missingCols expected_attorneys a).isEmpty && (missingCols expected_cases c).isEmpty
        && (missingCols expected_time_entries te).isEmpty) = true →
      checkRequiredFindings a c te = ["All expected columns are present."]) ∧
    (((missingCols expected_attorneys a).isEmpty && (missingCols expected_cases c).isEmpty
        && (missingCols expected_time_entries te).isEmpty) = false →
      checkRequiredFindings a c te =
        (if (missingCols expected_attorneys a).isEmpty then []
         else ["Missing columns in attorneys file: "
           ++ pySetRepr (missingCols expected_attorneys a)]) ++
        (if (missingCols expected_cases c).isEmpty then []
         else ["Missing columns in cases file: "
           ++ pySetRepr (missingCols expected_cases c)]) ++
        (if (missingCols expected_time_entries te).isEmpty then []
         else ["Missing columns in time_entries file: "
           ++ pySetRepr (missingCols expected_time_entries te)])) := by
  have hmem : ∀ (exp : List String) (t : Table) (col : String),
      col ∈ missingCols exp t ↔ col ∈ exp ∧ col ∉ t.cols := by
    intro exp t col
    simp only [missingCols, List.mem_filter, Bool.not_eq_true']
    constructor
    · rintro ⟨h1, h2⟩
      refine ⟨h1, fun hc => ?_⟩
      rw [← contains_iff_mem t.cols col, h2] at hc
      cases hc
    · rintro ⟨h1, h2⟩
      refine ⟨h1, ?_⟩
      rw [← Bool.not_eq_true, contains_iff_mem]
      exact h2
  refine ⟨hmem _ a, hmem _ c, hmem _ te, ?_, ?_⟩
  · intro h
    simp only [Bool.and_eq_true] at h
    simp [checkRequiredFindings, h.1.1, h.1.2, h.2]
  · intro h
    cases hma : (missingCols expected_attorneys a).isEmpty <;>
      cases hmc : (missingCols expected_cases c).isEmpty <;>
        cases hmt : (missingCols expected_time_entries te).isEmpty <;>
          rw [hma, hmc, hmt] at h <;>
            first
              | (simp [checkRequiredFindings, hma, hmc, hmt]; done)
              | simp at h

/-- C8 witness: on the fully valid fixture tables every expected column is
present, so the single success finding is appended. -/
theorem c8_structural_checker_witness :
    checkRequiredFindings okAttorneys okCases okTimeEntries
      = ["All expected columns are present."] :=
  (c8_structural_checker okAttorneys okCases okTimeEntries).2.2.2.1 (by decide)

/-- C9: two runs of the full check set from fresh engine instances over
identical inputs (schema load and three table loads), at possibly
different wall-clock timestamps, produce the same outcome, the same
finding sequence, and the same report contents — only the timestamped
report file names can differ. -/
theorem c9_runs_identical_up_to_timestamps (t1 t2 : String) (sl : Except String Schema)
    (la lc lt : Except String Table) :
    runObservation (run_all t1 la lc lt (mkDataValidator sl))
      = runObservation (run_all t2 la lc lt (mkDataValidator sl)) :=
  runChecks_obs t1 t2 (load_data la lc lt (mkDataValidator sl))

/-- C10: a run in which all three tables load and the checks complete has a
non-empty accumulator (the structural checker always appends a finding),
so `get_error_details` takes the newline-join branch rather than the
fallback success marker. -/
theorem c10_completed_run_has_findings (t : String) (sl : Except String Schema)
    (a c te : Table) (s' : EngineState)
    (h : run_all t (Except.ok a) (Except.ok c) (Except.ok te) (mkDataValidator sl)
      = Except.ok s') :
    s'.error_details ≠ [] ∧
    get_error_details s' = String.intercalate "\n" s'.error_details := by
  have h1 : ((check_required_columns
        (load_data (Except.ok a) (Except.ok c) (Except.ok te) (mkDataValidator sl))).bind
      (fun s2 => (validate_data_integrity t s2).bind
        (fun s3 => validate_formats_and_values s3))) = Except.ok s' := h
  rw [check_required_some
    (load_data (Except.ok a) (Except.ok c) (Except.ok te) (mkDataValidator sl))
    a c te rfl rfl rfl] at h1
  have h2 : (validate_data_integrity t
        (withFindings (load_data (Except.ok a) (Except.ok c) (Except.ok te)
          (mkDataValidator sl)) (checkRequiredFindings a c te))).bind
      (fun s3 => validate_formats_and_values s3) = Except.ok s' := h1
  cases hI : integrityFindings
      (withFindings (load_data (Except.ok a) (Except.ok c) (Except.ok te)
        (mkDataValidator sl)) (checkRequiredFindings a c te)) with
  | error e =>
    rw [integrity_err_findings t _ e hI] at h2
    simp [Except.bind] at h2
  | ok fs =>
    cases hR : reportCounts (withFindings
        (withFindings (load_data (Except.ok a) (Except.ok c) (Except.ok te)
          (mkDataValidator sl)) (checkRequiredFindings a c te)) fs) with
    | error e =>
      rw [integrity_err_counts t _ fs e hI hR] at h2
      simp [Except.bind] at h2
    | ok cts =>
      rw [integrity_ok t _ fs cts hI hR] at h2
      have h3 : validate_formats_and_values
          (exportedState t (withFindings (load_data (Except.ok a) (Except.ok c)
            (Except.ok te) (mkDataValidator sl)) (checkRequiredFindings a c te)) fs cts)
        = Except.ok s' := h2
      rw [formats_some
        (exportedState t (withFindings (load_data (Except.ok a) (Except.ok c)
          (Except.ok te) (mkDataValidator sl)) (checkRequiredFindings a c te)) fs cts)
        a c te rfl rfl rfl] at h3
      injection h3 with h4
      subst h4
      have hne : (withFindings
          (exportedState t (withFindings (load_data (Except.ok a) (Except.ok c)
            (Except.ok te) (mkDataValidator sl)) (checkRequiredFindings a c te)) fs cts)
          (formatFindings a c te)).error_details ≠ [] := by
        intro hnil
        simp [withFindings, exportedState, List.append_eq_nil] at hnil
        exact checkRequiredFindings_ne_nil a c te hnil.2.1
      refine ⟨hne, ?_⟩
      have hfalse : (withFindings
          (exportedState t (withFindings (load_data (Except.ok a) (Except.ok c)
            (Except.ok te) (mkDataValidator sl)) (checkRequiredFindings a c te)) fs cts)
          (formatFindings a c te)).error_details.isEmpty = false := by
        rw [Bool.eq_false_iff]
        intro htrue
        exact hne (List.isEmpty_iff.mp htrue)
      simp [get_error_details, hfalse]

/-- C10 witness on the fully valid fixture run. -/
theorem c10_completed_run_has_findings_witness :
    okRunState.error_details ≠ [] ∧
    get_error_details okRunState = String.intercalate "\n" okRunState.error_details :=
  c10_completed_run_has_findings "20240101_120000" (Except.ok stdSchema)
    okAttorneys okCases okTimeEntries okRunState (by decide)

end DataValidation
